import Mathlib

set_option maxRecDepth 40000
set_option maxHeartbeats 4000000

/-!
Verification of the chart-of-accounts generator
(`examples/financial-sim/generate-comprehensive-coa.py`).

The script builds, purely in memory, a list of account records, wraps it in a
metadata envelope, and (in `__main__`) serializes it with `json.dump` and
prints a per-type tally.  We embed the record type, the full literal data in
source order, the derived-parent computation of the "Other Revenue" block,
the envelope, the `by_type` tally of the `__main__` block, and a model of the
indented JSON serialization, and prove the spec's claims about them.
-/

/-- An account record, as built by the dict literals of the script: keys
`code`, `name`, `type`, `parent`, `currency`, and (on the "1000" root only)
`regulation`. `parent` is `None` on the five category roots. -/
structure Account where
  code : String
  name : String
  type : String
  parent : Option String
  currency : String
  regulation : Option String := none
  deriving DecidableEq, Repr

/-- The loops `for code, name in <group>: accounts.append({..., "type": ty,
"parent": parentCode, "currency": "USD"})` used for every fixed-parent
sub-group of the script. -/
def childAccounts (ty parentCode : String) (pairs : List (String × String)) : List Account :=
  pairs.map (fun p =>
    { code := p.1, name := p.2, type := ty, parent := some parentCode, currency := "USD" })

/-- `cash_accounts` (source lines 22-31): tuples of code, name and an optional
currency override (`*opts`, defaulting to `"USD"`). -/
def cash_accounts : List (String × String × Option String) :=
  [ ("1101", "Petty Cash", none),
    ("1102", "Cash - Operating Account", none),
    ("1103", "Cash - Payroll Account", none),
    ("1104", "Cash - Savings Account", none),
    ("1105", "Cash - Money Market", none),
    ("1106", "Cash - Foreign Currency - EUR", some "EUR"),
    ("1107", "Cash - Foreign Currency - GBP", some "GBP"),
    ("1108", "Cash - Foreign Currency - JPY", some "JPY") ]

/-- `ar_accounts` (source lines 38-46). -/
def ar_accounts : List (String × String) :=
  [ ("1111", "AR - Trade"),
    ("1112", "AR - Related Parties"),
    ("1113", "AR - Employees"),
    ("1114", "AR - Insurance Claims"),
    ("1115", "Allowance for Doubtful Accounts"),
    ("1116", "AR - Government Contracts"),
    ("1117", "AR - International") ]

/-- `inventory_accounts` (source lines 52-62). -/
def inventory_accounts : List (String × String) :=
  [ ("1131", "Raw Materials"),
    ("1132", "Work in Process"),
    ("1133", "Finished Goods"),
    ("1134", "Merchandise Inventory"),
    ("1135", "Supplies Inventory"),
    ("1136", "Packaging Materials"),
    ("1137", "Manufacturing Supplies"),
    ("1138", "Inventory in Transit"),
    ("1139", "Obsolete Inventory") ]

/-- `prepaid` (source lines 68-74). -/
def prepaid : List (String × String) :=
  [ ("1141", "Prepaid Insurance"),
    ("1142", "Prepaid Rent"),
    ("1143", "Prepaid Taxes"),
    ("1144", "Prepaid Subscriptions"),
    ("1145", "Prepaid Licenses") ]

/-- `investments` (source lines 80-85). -/
def investments : List (String × String) :=
  [ ("1151", "Marketable Securities"),
    ("1152", "Treasury Bills"),
    ("1153", "Commercial Paper"),
    ("1154", "Certificates of Deposit") ]

/-- `buildings` (source lines 95-101). -/
def buildings : List (String × String) :=
  [ ("1221", "Buildings - Office"),
    ("1222", "Buildings - Warehouse"),
    ("1223", "Buildings - Manufacturing"),
    ("1224", "Buildings - Retail"),
    ("1225", "Accumulated Depreciation - Buildings") ]

/-- `equipment` (source lines 111-117). -/
def equipment : List (String × String) :=
  [ ("1241", "Manufacturing Equipment"),
    ("1242", "Office Equipment"),
    ("1243", "Computer Equipment"),
    ("1244", "Network Equipment"),
    ("1245", "Accumulated Depreciation - Equipment") ]

/-- `intangibles` (source lines 131-143). -/
def intangibles : List (String × String) :=
  [ ("1310", "Patents"),
    ("1315", "Accumulated Amortization - Patents"),
    ("1320", "Trademarks"),
    ("1325", "Accumulated Amortization - Trademarks"),
    ("1330", "Copyrights"),
    ("1335", "Accumulated Amortization - Copyrights"),
    ("1340", "Goodwill"),
    ("1350", "Software Development Costs"),
    ("1355", "Accumulated Amortization - Software"),
    ("1360", "Customer Relationships"),
    ("1370", "Brand Names") ]

/-- `ap_accounts` (source lines 156-161). -/
def ap_accounts : List (String × String) :=
  [ ("2111", "AP - Trade"),
    ("2112", "AP - Related Parties"),
    ("2113", "AP - Utilities"),
    ("2114", "AP - Rent") ]

/-- `accrued` (source lines 172-179). -/
def accrued : List (String × String) :=
  [ ("2131", "Accrued Salaries"),
    ("2132", "Accrued Taxes"),
    ("2133", "Accrued Interest"),
    ("2134", "Accrued Utilities"),
    ("2135", "Accrued Rent"),
    ("2136", "Accrued Commissions") ]

/-- `payroll_liab` (source lines 190-197). -/
def payroll_liab : List (String × String) :=
  [ ("2151", "Federal Income Tax Withheld"),
    ("2152", "State Income Tax Withheld"),
    ("2153", "Social Security Tax Payable"),
    ("2154", "Medicare Tax Payable"),
    ("2155", "401k Contributions Payable"),
    ("2156", "Health Insurance Payable") ]

/-- `lt_liab` (source lines 203-210). -/
def lt_liab : List (String × String) :=
  [ ("2210", "Long-term Loans"),
    ("2220", "Bonds Payable"),
    ("2230", "Mortgage Payable"),
    ("2240", "Deferred Tax Liability"),
    ("2250", "Pension Liability"),
    ("2260", "Lease Obligations") ]

/-- `equity_accounts` (source lines 217-226). -/
def equity_accounts : List (String × String) :=
  [ ("3100", "Owner\x27s Equity"),
    ("3200", "Retained Earnings"),
    ("3300", "Common Stock"),
    ("3310", "Preferred Stock"),
    ("3400", "Additional Paid-in Capital"),
    ("3500", "Treasury Stock"),
    ("3600", "Accumulated Other Comprehensive Income"),
    ("3700", "Dividends") ]

/-- `sales` (source lines 236-245). -/
def sales : List (String × String) :=
  [ ("4110", "Product Sales"),
    ("4111", "Domestic Sales"),
    ("4112", "International Sales"),
    ("4113", "Online Sales"),
    ("4114", "Retail Sales"),
    ("4115", "Wholesale Sales"),
    ("4120", "Sales Returns and Allowances"),
    ("4130", "Sales Discounts") ]

/-- `services` (source lines 251-261). -/
def services : List (String × String) :=
  [ ("4210", "Consulting Revenue"),
    ("4220", "Professional Fees"),
    ("4230", "Billable Hours"),
    ("4240", "Retainer Fees"),
    ("4250", "Subscription Revenue"),
    ("4251", "Monthly Subscriptions"),
    ("4252", "Annual Subscriptions"),
    ("4260", "Maintenance Revenue"),
    ("4270", "Support Revenue") ]

/-- `other_revenue` (source lines 266-275). -/
def other_revenue : List (String × String) :=
  [ ("4300", "Interest Income"),
    ("4400", "Rental Income"),
    ("4410", "Rental Income - Residential"),
    ("4420", "Rental Income - Commercial"),
    ("4500", "Dividend Income"),
    ("4600", "Gain on Sale of Assets"),
    ("4700", "Foreign Exchange Gain"),
    ("4800", "Miscellaneous Revenue") ]

/-- Python's `s.endswith(t)`: `t` is a suffix of `s`, decided on the
character lists. -/
def strEndsWith (s t : String) : Bool := t.data.isSuffixOf s.data

/-- Python's `s[:-1]`: the string without its last character. -/
def dropLastChar (s : String) : String := String.mk s.data.dropLast

/-- The derived-parent computation of the Other Revenue loop (source lines
276-278): `parent = "4000" if code.endswith("00") else code[:-1] + "0"`, and
the record stores `parent if parent != code else "4000"`. -/
def otherRevenueParent (code : String) : String :=
  let parent := if strEndsWith code "00" then "4000" else dropLastChar code ++ "0"
  if parent ≠ code then parent else "4000"

/-- `cogs` (source lines 286-292). -/
def cogs : List (String × String) :=
  [ ("5110", "Direct Materials"),
    ("5120", "Direct Labor"),
    ("5130", "Manufacturing Overhead"),
    ("5140", "Freight In"),
    ("5150", "Inventory Shrinkage") ]

/-- `payroll` (source lines 301-309). -/
def payroll : List (String × String) :=
  [ ("5211", "Executive Salaries"),
    ("5212", "Administrative Salaries"),
    ("5213", "Sales Salaries"),
    ("5214", "Production Wages"),
    ("5215", "Overtime"),
    ("5216", "Bonuses"),
    ("5217", "Commissions") ]

/-- `benefits` (source lines 315-323). -/
def benefits : List (String × String) :=
  [ ("5221", "Health Insurance"),
    ("5222", "Dental Insurance"),
    ("5223", "Life Insurance"),
    ("5224", "401k Matching"),
    ("5225", "Pension Contributions"),
    ("5226", "Workers Compensation"),
    ("5227", "Unemployment Insurance") ]

/-- `occupancy` (source lines 329-337). -/
def occupancy : List (String × String) :=
  [ ("5231", "Office Rent"),
    ("5232", "Warehouse Rent"),
    ("5233", "Electricity"),
    ("5234", "Gas"),
    ("5235", "Water"),
    ("5236", "Internet"),
    ("5237", "Telephone") ]

/-- `marketing` (source lines 343-350). -/
def marketing : List (String × String) :=
  [ ("5241", "Digital Advertising"),
    ("5242", "Print Advertising"),
    ("5243", "Trade Shows"),
    ("5244", "Promotional Materials"),
    ("5245", "Website Marketing"),
    ("5246", "Social Media Marketing") ]

/-- `professional` (source lines 356-361). -/
def professional : List (String × String) :=
  [ ("5251", "Legal Fees"),
    ("5252", "Accounting Fees"),
    ("5253", "Consulting Fees"),
    ("5254", "Audit Fees") ]

/-- `insurance` (source lines 367-372). -/
def insurance : List (String × String) :=
  [ ("5261", "General Liability Insurance"),
    ("5262", "Property Insurance"),
    ("5263", "Auto Insurance"),
    ("5264", "Directors and Officers Insurance") ]

/-- `office` (source lines 378-384). -/
def office : List (String × String) :=
  [ ("5271", "Office Supplies"),
    ("5272", "Postage and Delivery"),
    ("5273", "Printing and Copying"),
    ("5274", "Subscriptions and Memberships"),
    ("5275", "Software Licenses") ]

/-- `travel` (source lines 390-396). -/
def travel : List (String × String) :=
  [ ("5281", "Airfare"),
    ("5282", "Hotels"),
    ("5283", "Meals"),
    ("5284", "Car Rental"),
    ("5285", "Client Entertainment") ]

/-- `maintenance` (source lines 402-407). -/
def maintenance : List (String × String) :=
  [ ("5291", "Building Maintenance"),
    ("5292", "Equipment Repairs"),
    ("5293", "Vehicle Maintenance"),
    ("5294", "Computer Repairs") ]

/-- `depreciation` (source lines 413-418). -/
def depreciation : List (String × String) :=
  [ ("5310", "Depreciation - Buildings"),
    ("5320", "Depreciation - Equipment"),
    ("5330", "Depreciation - Vehicles"),
    ("5340", "Amortization - Intangibles") ]

/-- `interest` (source lines 424-429). -/
def interest : List (String × String) :=
  [ ("5410", "Interest Expense - Loans"),
    ("5420", "Interest Expense - Credit Cards"),
    ("5430", "Bank Charges"),
    ("5440", "Finance Charges") ]

/-- `taxes` (source lines 435-441). -/
def taxes : List (String × String) :=
  [ ("5510", "Federal Income Tax"),
    ("5520", "State Income Tax"),
    ("5530", "Property Tax"),
    ("5540", "Sales Tax"),
    ("5550", "Payroll Taxes") ]

/-- `other_expenses` (source lines 447-456). -/
def other_expenses : List (String × String) :=
  [ ("5610", "Bad Debt Expense"),
    ("5620", "Loss on Sale of Assets"),
    ("5630", "Foreign Exchange Loss"),
    ("5640", "Donations"),
    ("5650", "Research and Development"),
    ("5660", "Training and Development"),
    ("5670", "Licenses and Permits"),
    ("5680", "Miscellaneous Expense") ]

/-- The full `accounts` list of `generate_comprehensive_coa`, in source order:
every `accounts.append(...)` of lines 16-458, with each `for code, name in
<group>` loop rendered through `childAccounts` and the two special loops
(`cash_accounts` with optional currency, `other_revenue` with derived parent)
rendered directly. -/
def accounts : List Account :=
  [ { code := "1000", name := "Assets", type := "ASSET", parent := none,
      currency := "USD", regulation := some "" } ]
  ++ [ { code := "1100", name := "Current Assets", type := "ASSET", parent := some "1000", currency := "USD" } ]
  ++ cash_accounts.map (fun p =>
      { code := p.1, name := p.2.1, type := "ASSET", parent := some "1100",
        currency := p.2.2.getD "USD" })
  ++ [ { code := "1110", name := "Accounts Receivable", type := "ASSET", parent := some "1100", currency := "USD" } ]
  ++ childAccounts "ASSET" "1110" ar_accounts
  ++ [ { code := "1130", name := "Inventory", type := "ASSET", parent := some "1100", currency := "USD" } ]
  ++ childAccounts "ASSET" "1130" inventory_accounts
  ++ [ { code := "1140", name := "Prepaid Expenses", type := "ASSET", parent := some "1100", currency := "USD" } ]
  ++ childAccounts "ASSET" "1140" prepaid
  ++ [ { code := "1150", name := "Short-term Investments", type := "ASSET", parent := some "1100", currency := "USD" } ]
  ++ childAccounts "ASSET" "1150" investments
  ++ [ { code := "1200", name := "Fixed Assets", type := "ASSET", parent := some "1000", currency := "USD" },
       { code := "1210", name := "Land", type := "ASSET", parent := some "1200", currency := "USD" },
       { code := "1220", name := "Buildings", type := "ASSET", parent := some "1200", currency := "USD" } ]
  ++ childAccounts "ASSET" "1220" buildings
  ++ [ { code := "1230", name := "Leasehold Improvements", type := "ASSET", parent := some "1200", currency := "USD" },
       { code := "1235", name := "Accumulated Amortization - Leasehold", type := "ASSET", parent := some "1230", currency := "USD" },
       { code := "1240", name := "Equipment", type := "ASSET", parent := some "1200", currency := "USD" } ]
  ++ childAccounts "ASSET" "1240" equipment
  ++ [ { code := "1250", name := "Vehicles", type := "ASSET", parent := some "1200", currency := "USD" },
       { code := "1255", name := "Accumulated Depreciation - Vehicles", type := "ASSET", parent := some "1250", currency := "USD" },
       { code := "1260", name := "Furniture and Fixtures", type := "ASSET", parent := some "1200", currency := "USD" },
       { code := "1265", name := "Accumulated Depreciation - Furniture", type := "ASSET", parent := some "1260", currency := "USD" },
       { code := "1300", name := "Intangible Assets", type := "ASSET", parent := some "1000", currency := "USD" } ]
  ++ childAccounts "ASSET" "1300" intangibles
  ++ [ { code := "2000", name := "Liabilities", type := "LIABILITY", parent := none, currency := "USD" },
       { code := "2100", name := "Current Liabilities", type := "LIABILITY", parent := some "2000", currency := "USD" },
       { code := "2110", name := "Accounts Payable", type := "LIABILITY", parent := some "2100", currency := "USD" } ]
  ++ childAccounts "LIABILITY" "2110" ap_accounts
  ++ [ { code := "2120", name := "Short-term Loans", type := "LIABILITY", parent := some "2100", currency := "USD" },
       { code := "2121", name := "Line of Credit", type := "LIABILITY", parent := some "2120", currency := "USD" },
       { code := "2122", name := "Notes Payable - Current", type := "LIABILITY", parent := some "2120", currency := "USD" },
       { code := "2130", name := "Accrued Expenses", type := "LIABILITY", parent := some "2100", currency := "USD" } ]
  ++ childAccounts "LIABILITY" "2130" accrued
  ++ [ { code := "2140", name := "Deferred Revenue", type := "LIABILITY", parent := some "2100", currency := "USD" },
       { code := "2141", name := "Unearned Service Revenue", type := "LIABILITY", parent := some "2140", currency := "USD" },
       { code := "2142", name := "Customer Deposits", type := "LIABILITY", parent := some "2140", currency := "USD" },
       { code := "2150", name := "Payroll Liabilities", type := "LIABILITY", parent := some "2100", currency := "USD" } ]
  ++ childAccounts "LIABILITY" "2150" payroll_liab
  ++ [ { code := "2200", name := "Long-term Liabilities", type := "LIABILITY", parent := some "2000", currency := "USD" } ]
  ++ childAccounts "LIABILITY" "2200" lt_liab
  ++ [ { code := "3000", name := "Equity", type := "EQUITY", parent := none, currency := "USD" } ]
  ++ childAccounts "EQUITY" "3000" equity_accounts
  ++ [ { code := "4000", name := "Revenue", type := "REVENUE", parent := none, currency := "USD" },
       { code := "4100", name := "Sales Revenue", type := "REVENUE", parent := some "4000", currency := "USD" } ]
  ++ childAccounts "REVENUE" "4100" sales
  ++ [ { code := "4200", name := "Service Revenue", type := "REVENUE", parent := some "4000", currency := "USD" } ]
  ++ childAccounts "REVENUE" "4200" services
  ++ other_revenue.map (fun p =>
      { code := p.1, name := p.2, type := "REVENUE",
        parent := some (otherRevenueParent p.1), currency := "USD" })
  ++ [ { code := "5000", name := "Expenses", type := "EXPENSE", parent := none, currency := "USD" },
       { code := "5100", name := "Cost of Goods Sold", type := "EXPENSE", parent := some "5000", currency := "USD" } ]
  ++ childAccounts "EXPENSE" "5100" cogs
  ++ [ { code := "5200", name := "Operating Expenses", type := "EXPENSE", parent := some "5000", currency := "USD" },
       { code := "5210", name := "Salaries and Wages", type := "EXPENSE", parent := some "5200", currency := "USD" } ]
  ++ childAccounts "EXPENSE" "5210" payroll
  ++ [ { code := "5220", name := "Employee Benefits", type := "EXPENSE", parent := some "5200", currency := "USD" } ]
  ++ childAccounts "EXPENSE" "5220" benefits
  ++ [ { code := "5230", name := "Rent and Occupancy", type := "EXPENSE", parent := some "5200", currency := "USD" } ]
  ++ childAccounts "EXPENSE" "5230" occupancy
  ++ [ { code := "5240", name := "Marketing and Advertising", type := "EXPENSE", parent := some "5200", currency := "USD" } ]
  ++ childAccounts "EXPENSE" "5240" marketing
  ++ [ { code := "5250", name := "Professional Services", type := "EXPENSE", parent := some "5200", currency := "USD" } ]
  ++ childAccounts "EXPENSE" "5250" professional
  ++ [ { code := "5260", name := "Insurance", type := "EXPENSE", parent := some "5200", currency := "USD" } ]
  ++ childAccounts "EXPENSE" "5260" insurance
  ++ [ { code := "5270", name := "Office and Administrative", type := "EXPENSE", parent := some "5200", currency := "USD" } ]
  ++ childAccounts "EXPENSE" "5270" office
  ++ [ { code := "5280", name := "Travel and Entertainment", type := "EXPENSE", parent := some "5200", currency := "USD" } ]
  ++ childAccounts "EXPENSE" "5280" travel
  ++ [ { code := "5290", name := "Maintenance and Repairs", type := "EXPENSE", parent := some "5200", currency := "USD" } ]
  ++ childAccounts "EXPENSE" "5290" maintenance
  ++ [ { code := "5300", name := "Depreciation and Amortization", type := "EXPENSE", parent := some "5000", currency := "USD" } ]
  ++ childAccounts "EXPENSE" "5300" depreciation
  ++ [ { code := "5400", name := "Interest and Finance Charges", type := "EXPENSE", parent := some "5000", currency := "USD" } ]
  ++ childAccounts "EXPENSE" "5400" interest
  ++ [ { code := "5500", name := "Taxes", type := "EXPENSE", parent := some "5000", currency := "USD" } ]
  ++ childAccounts "EXPENSE" "5500" taxes
  ++ [ { code := "5600", name := "Other Expenses", type := "EXPENSE", parent := some "5000", currency := "USD" } ]
  ++ childAccounts "EXPENSE" "5600" other_expenses

/-- The metadata envelope under the `"chart_of_accounts"` key of the returned
document (source lines 461-471). -/
structure ChartOfAccounts where
  name : String
  description : String
  version : String
  base_currency : String
  regulation_frameworks : List String
  account_count : Nat
  accounts : List Account
  deriving DecidableEq, Repr

/-- The document returned by `generate_comprehensive_coa` (its single key
`"chart_of_accounts"`). -/
structure CoaDocument where
  chart_of_accounts : ChartOfAccounts
  deriving DecidableEq, Repr

/-- `generate_comprehensive_coa()` (source lines 8-473).  The Python function
takes no arguments and reads no external state; the `Unit` argument stands for
its (empty) input so that determinism can be stated across calls. -/
def generate_comprehensive_coa (_u : Unit) : CoaDocument :=
  { chart_of_accounts :=
    { name := "Comprehensive Standard Chart of Accounts"
      description := "Comprehensive CoA with 500+ accounts covering multiple industries and business types"
      version := "1.0"
      base_currency := "USD"
      regulation_frameworks := ["SOX", "Basel III", "MiFID II", "GDPR"]
      account_count := accounts.length
      accounts := accounts } }

/-- The accounts list of the generated document, the subject of the claims. -/
def coaAccounts : List Account :=
  (generate_comprehensive_coa ()).chart_of_accounts.accounts

/-- One step of the `__main__` tally
`by_type[acc_type] = by_type.get(acc_type, 0) + 1` on an insertion-ordered
association list (the Python dict). -/
def bump : List (String × Nat) → String → List (String × Nat)
  | [], k => [(k, 1)]
  | (k0, v) :: rest, k =>
    if k0 = k then (k0, v + 1) :: rest else (k0, v) :: bump rest k

/-- The `by_type` tally of the `__main__` block (source lines 486-489). -/
def by_type (accs : List Account) : List (String × Nat) :=
  accs.foldl (fun m a => bump m a.type) []

/-- Strict code-point lexicographic order on character lists: the order
Python's `<` places on `str` values. -/
def charListLt : List Char → List Char → Bool
  | _, [] => false
  | [], _ :: _ => true
  | c :: cs, d :: ds =>
    decide (c.val.toNat < d.val.toNat) || (c == d && charListLt cs ds)

/-- Strict code-point lexicographic order on strings. -/
def strLt (a b : String) : Bool := charListLt a.data b.data

/-- The comparison Python's `sorted` uses on the `(type, count)` pairs of
`by_type.items()`: lexicographic tuple order. -/
def pairLe (p q : String × Nat) : Bool :=
  strLt p.1 q.1 || (p.1 == q.1 && decide (p.2 ≤ q.2))

/-- Insertion of one pair into an already sorted list, keeping earlier equal
elements first (Python's `sorted` is a stable comparison sort; on a list with
pairwise-distinct first components any stable sort by `pairLe` yields the
same result). -/
def insertSorted (p : String × Nat) : List (String × Nat) → List (String × Nat)
  | [] => [p]
  | q :: rest => if pairLe p q then p :: q :: rest else q :: insertSorted p rest

/-- `sorted(by_type.items())`, the order of the console breakdown
(source line 492). -/
def sorted_by_type (accs : List Account) : List (String × Nat) :=
  (by_type accs).foldr insertSorted []

/-- JSON rendering of a string; none of the data contains characters that
`json.dump` escapes. -/
def jsonStr (s : String) : String := "\"" ++ s ++ "\""

/-- One account object as `json.dump(..., indent=2)` renders it at depth 3:
keys in dict insertion order, `null` for a `None` parent, and the
`regulation` key present only on the record that carries it. -/
def serializeAccount (a : Account) : String :=
  let fields : List String :=
    [ jsonStr "code" ++ ": " ++ jsonStr a.code,
      jsonStr "name" ++ ": " ++ jsonStr a.name,
      jsonStr "type" ++ ": " ++ jsonStr a.type,
      jsonStr "parent" ++ ": " ++ (match a.parent with
        | none => "null"
        | some p => jsonStr p),
      jsonStr "currency" ++ ": " ++ jsonStr a.currency ]
    ++ (match a.regulation with
        | none => []
        | some r => [ jsonStr "regulation" ++ ": " ++ jsonStr r ])
  "      \x7b\n" ++ String.intercalate ",\n" (fields.map (fun f => "        " ++ f))
    ++ "\n      \x7d"

/-- The document as `json.dump(coa, f, indent=2)` writes it (source lines
479-480): two-space indentation per level, keys in insertion order. -/
def serialize_coa (d : CoaDocument) : String :=
  let c := d.chart_of_accounts
  "\x7b\n  \"chart_of_accounts\": \x7b\n"
  ++ "    " ++ jsonStr "name" ++ ": " ++ jsonStr c.name ++ ",\n"
  ++ "    " ++ jsonStr "description" ++ ": " ++ jsonStr c.description ++ ",\n"
  ++ "    " ++ jsonStr "version" ++ ": " ++ jsonStr c.version ++ ",\n"
  ++ "    " ++ jsonStr "base_currency" ++ ": " ++ jsonStr c.base_currency ++ ",\n"
  ++ "    " ++ jsonStr "regulation_frameworks" ++ ": [\n"
  ++ String.intercalate ",\n" (c.regulation_frameworks.map (fun s => "      " ++ jsonStr s))
  ++ "\n    ],\n"
  ++ "    " ++ jsonStr "account_count" ++ ": " ++ toString c.account_count ++ ",\n"
  ++ "    " ++ jsonStr "accounts" ++ ": [\n"
  ++ String.intercalate ",\n" (c.accounts.map serializeAccount)
  ++ "\n    ]\n  \x7d\n\x7d"

/-- Python's `s.startswith(t)` on a string: `t` is a prefix of `s`, decided
on the character lists. -/
def strStartsWith (s t : String) : Bool := t.data.isPrefixOf s.data

/-- C1: in the list built by `generate_comprehensive_coa()`, every record
whose `parent` field is non-null has a parent string equal to the `code`
field of some other record of the same list: no dangling parent references. -/
theorem c1_parent_referential_integrity :
    ∀ a ∈ coaAccounts, a.parent ≠ none →
      ∃ b ∈ coaAccounts, b ≠ a ∧ some b.code = a.parent := by
  have key : ∀ a ∈ coaAccounts, a.parent ≠ none →
      ∃ b ∈ coaAccounts, b.code ≠ a.code ∧ some b.code = a.parent := by decide
  intro a ha hp
  obtain ⟨b, hb, hbc, hbp⟩ := key a ha hp
  exact ⟨b, hb, fun h => hbc (congrArg Account.code h), hbp⟩

/-- Witness for C1 at the record `"1100"` (Current Assets), whose parent
`"1000"` is the Assets root. -/
theorem c1_witness :
    ∃ b ∈ coaAccounts,
      b ≠ ({ code := "1100", name := "Current Assets", type := "ASSET", parent := some "1000", currency := "USD" } : Account) ∧
      some b.code = ({ code := "1100", name := "Current Assets", type := "ASSET", parent := some "1000", currency := "USD" } : Account).parent :=
  c1_parent_referential_integrity _ (by decide) (by decide)

/-- C2: the record with code `"4700"` (Foreign Exchange Gain) produced by the
derived-parent logic of the Other Revenue group has parent `"4000"`, and for
every code of that group (including boundary cases such as `"4300"` that end
in two zeros) the derivation yields a parent code that exists in the
collection. -/
theorem c2_derived_parent_exists :
    ((coaAccounts.filter (fun a => a.code == "4700")).map (fun a => (a.name, a.parent))
      = [("Foreign Exchange Gain", some "4000")]) ∧
    ∀ p ∈ other_revenue, ∃ b ∈ coaAccounts, b.code = otherRevenueParent p.1 :=
  ⟨by decide, by decide⟩

/-- Witness for C2 at the boundary case `"4300"` (Interest Income). -/
theorem c2_witness :
    ∃ b ∈ coaAccounts, b.code = otherRevenueParent "4300" :=
  c2_derived_parent_exists.2 ("4300", "Interest Income") (by decide)

/-- C3: every record appended in the Other Revenue loop gets computed parent
exactly `"4000"`: for the codes of that group not ending in `"00"` the
expression `code[:-1] + "0"` reproduces the code itself, triggering the
fallback, so in particular `"4410"` and `"4420"` end up direct children of
the root `"4000"` rather than of `"4400"`. -/
theorem c3_other_revenue_all_under_root :
    (other_revenue.map (fun p => otherRevenueParent p.1) = List.replicate 8 "4000") ∧
    (∀ p ∈ other_revenue, strEndsWith p.1 "00" = false → dropLastChar p.1 ++ "0" = p.1) ∧
    ((coaAccounts.filter (fun a => a.code == "4410" || a.code == "4420")).map
        (fun a => (a.name, a.parent))
      = [("Rental Income - Residential", some "4000"),
         ("Rental Income - Commercial", some "4000")]) :=
  ⟨by decide, by decide, by decide⟩

/-- Witness for C3 at `"4410"` (Rental Income - Residential), a code not
ending in `"00"` whose truncate-and-append-zero derivation reproduces the
code itself. -/
theorem c3_witness :
    dropLastChar "4410" ++ "0" = "4410" :=
  c3_other_revenue_all_under_root.2.1 ("4410", "Rental Income - Residential")
    (by decide) (by decide)

/-- C4: the `code` field is unique across the whole collection: any two
distinct records of the list have different code strings. -/
theorem c4_codes_unique :
    coaAccounts.Pairwise (fun a b => a.code ≠ b.code) := by
  decide

/-- C5: in the returned document, the `account_count` field of the
`chart_of_accounts` envelope equals the length of the `accounts` list it
contains (concretely, both are 233). -/
theorem c5_account_count_matches :
    (generate_comprehensive_coa ()).chart_of_accounts.account_count
      = (generate_comprehensive_coa ()).chart_of_accounts.accounts.length ∧
    (generate_comprehensive_coa ()).chart_of_accounts.accounts.length = 233 :=
  ⟨rfl, by decide⟩

/-- C6: the `by_type` tally of the console summary sums to `account_count`,
its keys are exactly the `type` values occurring in at least one record, and
the printed breakdown lists the (type, count) pairs sorted alphabetically by
type name. -/
theorem c6_by_type_summary :
    (((by_type coaAccounts).map Prod.snd).sum
        = (generate_comprehensive_coa ()).chart_of_accounts.account_count) ∧
    (∀ t : String, t ∈ (by_type coaAccounts).map Prod.fst ↔ ∃ a ∈ coaAccounts, a.type = t) ∧
    (sorted_by_type coaAccounts
        = [("ASSET", 71), ("EQUITY", 9), ("EXPENSE", 91), ("LIABILITY", 34), ("REVENUE", 28)]) ∧
    List.Chain' (fun p q => strLt p.1 q.1 = true) (sorted_by_type coaAccounts) := by
  refine ⟨by decide, fun t => ⟨fun ht => ?_, fun h => ?_⟩, by decide, ?_⟩
  · have h5 : ∀ s ∈ (by_type coaAccounts).map Prod.fst,
        ∃ a ∈ coaAccounts, a.type = s := by decide
    exact h5 t ht
  · obtain ⟨a, ha, hat⟩ := h
    have h2 : ∀ b ∈ coaAccounts, b.type ∈ (by_type coaAccounts).map Prod.fst := by decide
    exact hat ▸ h2 a ha
  · have hs : sorted_by_type coaAccounts
        = [("ASSET", 71), ("EQUITY", 9), ("EXPENSE", 91), ("LIABILITY", 34), ("REVENUE", 28)] := by
      decide
    rw [hs]
    simp only [List.chain'_cons, List.chain'_singleton, and_true]
    exact ⟨rfl, rfl, rfl, rfl⟩

/-- Witness for C6 at type `"ASSET"`: it is a key of the tally, so some
record carries it. -/
theorem c6_witness :
    ∃ a ∈ coaAccounts, a.type = "ASSET" :=
  (c6_by_type_summary.2.1 "ASSET").mp (by decide)

/-- C7: exactly the five category roots (Assets 1000, Liabilities 2000,
Equity 3000, Revenue 4000, Expenses 5000) have a null parent; every other
record has a non-null parent. -/
theorem c7_exactly_five_roots :
    ((coaAccounts.filter (fun a => a.parent.isNone)).map (fun a => (a.code, a.name))
      = [("1000", "Assets"), ("2000", "Liabilities"), ("3000", "Equity"),
         ("4000", "Revenue"), ("5000", "Expenses")]) ∧
    ∀ a ∈ coaAccounts,
      (a.parent = none ↔ a.code ∈ ["1000", "2000", "3000", "4000", "5000"]) :=
  ⟨by decide, by decide⟩

/-- Witness for C7 at the Liabilities root. -/
theorem c7_witness :
    ({ code := "2000", name := "Liabilities", type := "LIABILITY", parent := none, currency := "USD" } : Account).code ∈ ["1000", "2000", "3000", "4000", "5000"] :=
  (c7_exactly_five_roots.2 _ (by decide)).mp rfl

/-- C8: looking up code `"1102"` in the accounts list of the generated
document yields exactly one record: Cash - Operating Account, an ASSET under
parent `"1100"` in USD. -/
theorem c8_lookup_1102 :
    coaAccounts.filter (fun a => a.code == "1102")
      = [{ code := "1102", name := "Cash - Operating Account", type := "ASSET", parent := some "1100", currency := "USD" }] := by
  decide

/-- C9: every record's `type` is consistent with the leading digit of its
`code`: 1 = ASSET, 2 = LIABILITY, 3 = EQUITY, 4 = REVENUE, 5 = EXPENSE. -/
theorem c9_type_code_digit_convention :
    ∀ a ∈ coaAccounts,
      (strStartsWith a.code "1" = true → a.type = "ASSET") ∧
      (strStartsWith a.code "2" = true → a.type = "LIABILITY") ∧
      (strStartsWith a.code "3" = true → a.type = "EQUITY") ∧
      (strStartsWith a.code "4" = true → a.type = "REVENUE") ∧
      (strStartsWith a.code "5" = true → a.type = "EXPENSE") := by
  decide

/-- Witness for C9 at the Assets root, whose code starts with `"1"`. -/
theorem c9_witness :
    ({ code := "1000", name := "Assets", type := "ASSET", parent := none, currency := "USD", regulation := some "" } : Account).type = "ASSET" :=
  (c9_type_code_digit_convention _ (by decide)).1 (by decide)

/-- C10: `generate_comprehensive_coa` takes no inputs and reads no external
state, so any two runs return equal documents, and serializing the results of
two runs gives byte-identical text. -/
theorem c10_deterministic :
    (∀ u v : Unit, generate_comprehensive_coa u = generate_comprehensive_coa v) ∧
    (∀ u v : Unit, serialize_coa (generate_comprehensive_coa u)
        = serialize_coa (generate_comprehensive_coa v)) :=
  ⟨fun _ _ => rfl, fun _ _ => rfl⟩
